import Mathlib

set_option maxHeartbeats 4000000

/-!
# Verification of the NES emulator core (`src/main.rs`)

A shallow embedding of the emulator's data model and operations:

* machine integers (`u8`, `u16`) are modelled as `Nat` with explicit
  `% 256` / `% 65536` wherever the Rust code wraps or casts, and a `% 256`
  reduction where a value is read out of a `u8` storage cell;
* `Vec<[u8; N]>` / `Box<[u8; N]>` storage is modelled as functions
  `Nat → Nat` from index to cell value;
* the `todo!` panic on an unimplemented opcode is modelled as
  `Except.error opcode` (the payload is the opcode value the panic message
  reports); every implemented arm returns `Except.ok`;
* each `CpuMemoryBus` read/write additionally appends the transaction to a
  ghost `trace` field, so that the order and count of bus accesses can be
  stated; the trace influences no computed value;
* `eprintln!` diagnostics are omitted (they touch no emulator state).
-/

namespace NesEmu

/-- The fixed-bank mapper (`Mmc1`): a list of 16 KiB PRG-ROM pages, each page a
function from offset to `u8` cell (reads reduce the cell mod 256). -/
structure Mmc1 where
  pages : List (Nat → Nat)

/-- `Mmc1::read`: addresses `0xC000..=0xFFFF` serve the last loaded page at
offset `address - 0xC000` (`self.pages.last().map(|d| d[address - 0xC000])`);
anything else is unclaimed. -/
def Mmc1.read (m : Mmc1) (address : Nat) : Option Nat :=
  if 0xC000 ≤ address ∧ address ≤ 0xFFFF then
    m.pages.getLast?.map (fun d => d (address - 0xC000) % 256)
  else
    none

/-- `Mmc1::write`: always rejected, no state change. -/
def Mmc1.write (m : Mmc1) (_address _data : Nat) : Mmc1 × Bool :=
  (m, false)

/-- `Cart` forwards both calls to its mapper (`MapperEnum` has the single
`Mmc1` variant, so the enum layer is collapsed into the field type). -/
structure Cart where
  mapper : Mmc1

def Cart.read (c : Cart) (address : Nat) : Option Nat :=
  c.mapper.read address

def Cart.write (c : Cart) (address data : Nat) : Cart × Bool :=
  let r := c.mapper.write address data
  ({ mapper := r.1 }, r.2)

/-- Work RAM: `Box<[u8; 2048]>` modelled as a function from index to cell. -/
structure Ram where
  storage : Nat → Nat

def Ram.RAM_SIZE : Nat := 2 * 1024

/-- `Ram::read`: addresses above `0x1FFF` are unclaimed; otherwise the cell at
`address % RAM_SIZE` is returned. -/
def Ram.read (r : Ram) (address : Nat) : Option Nat :=
  if address > 0x1FFF then
    none
  else
    some (r.storage (address % Ram.RAM_SIZE) % 256)

/-- `Ram::write`: addresses above `0x1FFF` are rejected with no state change;
otherwise the cell at `address % RAM_SIZE` is replaced. -/
def Ram.write (r : Ram) (address data : Nat) : Ram × Bool :=
  if address > 0x1FFF then
    (r, false)
  else
    ({ storage := fun i => if i = address % Ram.RAM_SIZE then data else r.storage i },
     true)

/-- One bus transaction, recorded in the ghost trace. -/
inductive BusAccess where
  | read (address data : Nat)
  | write (address data : Nat)
deriving DecidableEq

/-- `CpuMemoryBus`: open-bus latch, cartridge, RAM, plus the ghost trace. -/
structure CpuMemoryBus where
  last_exchanged_value : Nat
  cart : Cart
  ram : Ram
  trace : List BusAccess

/-- `CpuMemoryBus::read`: cartridge first, then RAM, else the latched
open-bus value; whatever byte is produced is stored into the latch. -/
def CpuMemoryBus.read (bus : CpuMemoryBus) (address : Nat) : Nat × CpuMemoryBus :=
  let data :=
    match bus.cart.read address with
    | some d => d
    | none =>
      match bus.ram.read address with
      | some d => d
      | none => bus.last_exchanged_value
  (data,
   { bus with
      last_exchanged_value := data
      trace := bus.trace ++ [BusAccess.read address data] })

/-- `CpuMemoryBus::write`: the latch takes the data immediately; the write is
then offered to the cartridge and to RAM in that order. -/
def CpuMemoryBus.write (bus : CpuMemoryBus) (address data : Nat) : CpuMemoryBus :=
  let c := bus.cart.write address data
  let r := bus.ram.write address data
  { last_exchanged_value := data
    cart := c.1
    ram := r.1
    trace := bus.trace ++ [BusAccess.write address data] }

/-- Status flag masks from the `bitflags!` block. -/
def CARRY : Nat := 0x01

def ZERO : Nat := 0x02

def INTERRUPT_DISABLE : Nat := 0x04

def DECIMAL : Nat := 0x08

def B_FLAG : Nat := 0x10

def IGNORED : Nat := 0x20

def OVERFLOW : Nat := 0x40

def NEGATIVE : Nat := 0x80

/-- `bitflags` `set`: insert the mask when `value` is true, else remove it
(`bits & !mask` over `u8` is `bits &&& (0xFF ^^^ mask)`). -/
def setFlag (flags mask : Nat) (value : Bool) : Nat :=
  if value then flags ||| mask else flags &&& (0xFF ^^^ mask)

/-- The two-line Zero/Negative update idiom used by most arms:
`set(ZERO, v == 0); set(NEGATIVE, v & 0b1000_0000 != 0)`. -/
def setZN (flags v : Nat) : Nat :=
  setFlag (setFlag flags ZERO (v == 0)) NEGATIVE (v &&& 0x80 != 0)

/-- CPU register file and status flags. -/
structure Cpu where
  a_reg : Nat
  x_reg : Nat
  y_reg : Nat
  prog_counter : Nat
  stack_pointer : Nat
  status_flags : Nat

/-- `Cpu::new`: power-on state (the bus argument is unused in the source). -/
def Cpu.new : Cpu :=
  { a_reg := 0, x_reg := 0, y_reg := 0, prog_counter := 0
    stack_pointer := 0xFF, status_flags := 0x34 }

/-- `Cpu::reset`: `stack_pointer.wrapping_sub(3)`, set INTERRUPT_DISABLE, then
`u16::from(bus.read(0xfffd)) << 8 | u16::from(bus.read(0xfffc))` into the
program counter (the left operand of `|`, hence the `0xfffd` read, is
evaluated first). -/
def Cpu.reset (cpu : Cpu) (bus : CpuMemoryBus) : Cpu × CpuMemoryBus :=
  let sp := (cpu.stack_pointer + 256 - 3) % 256
  let flags := cpu.status_flags ||| INTERRUPT_DISABLE
  let (hi, bus) := bus.read 0xFFFD
  let (lo, bus) := bus.read 0xFFFC
  ({ cpu with
      stack_pointer := sp
      status_flags := flags
      prog_counter := (hi <<< 8) ||| lo }, bus)

/-- `Cpu::read_instr_byte`: read at the program counter, then
`wrapping_add(1)` the program counter. -/
def Cpu.read_instr_byte (cpu : Cpu) (bus : CpuMemoryBus) :
    Nat × Cpu × CpuMemoryBus :=
  let (data, bus) := bus.read cpu.prog_counter
  (data, { cpu with prog_counter := (cpu.prog_counter + 1) % 65536 }, bus)

/-- `Cpu::push_stack`: write at `0x0100 | sp`, then `sp.wrapping_sub(1)`. -/
def Cpu.push_stack (cpu : Cpu) (bus : CpuMemoryBus) (data : Nat) :
    Cpu × CpuMemoryBus :=
  let bus := bus.write (cpu.stack_pointer ||| 0x0100) data
  ({ cpu with stack_pointer := (cpu.stack_pointer + 256 - 1) % 256 }, bus)

/-- `Cpu::pull_stack`: dummy read at the old `0x0100 | sp`, increment `sp`
(wrapping), real read at the new `0x0100 | sp`. -/
def Cpu.pull_stack (cpu : Cpu) (bus : CpuMemoryBus) :
    Nat × Cpu × CpuMemoryBus :=
  let (_, bus) := bus.read (cpu.stack_pointer ||| 0x0100)
  let sp := (cpu.stack_pointer + 1) % 256
  let (data, bus) := bus.read (sp ||| 0x0100)
  (data, { cpu with stack_pointer := sp }, bus)

/-- `Cpu::pull_stack_address`: dummy read at the old stack page address, then
pull the low byte, then the high byte (incrementing `sp` before each real
read), returning `u16::from(high) << 8 | u16::from(low)`. -/
def Cpu.pull_stack_address (cpu : Cpu) (bus : CpuMemoryBus) :
    Nat × Cpu × CpuMemoryBus :=
  let (_, bus) := bus.read (cpu.stack_pointer ||| 0x0100)
  let sp1 := (cpu.stack_pointer + 1) % 256
  let (low, bus) := bus.read (sp1 ||| 0x0100)
  let sp2 := (sp1 + 1) % 256
  let (high, bus) := bus.read (sp2 ||| 0x0100)
  ((high <<< 8) ||| low, { cpu with stack_pointer := sp2 }, bus)

/-- `Cpu::run_instr`: fetch one opcode byte and dispatch.  Arms appear in the
same order as the source `match`; the final arm models the `todo!` panic as
`Except.error opcode`. -/
def Cpu.run_instr (cpu : Cpu) (bus : CpuMemoryBus) :
    Except Nat (Cpu × CpuMemoryBus) :=
  let (opcode, cpu, bus) := cpu.read_instr_byte bus
  match opcode with
  | 0x08 =>
    let (_, bus) := bus.read cpu.prog_counter
    let (cpu, bus) := cpu.push_stack bus cpu.status_flags
    .ok (cpu, bus)
  | 0x8E =>
    let (lo, cpu, bus) := cpu.read_instr_byte bus
    let (hi, cpu, bus) := cpu.read_instr_byte bus
    let address := lo ||| (hi <<< 8)
    let bus := bus.write address cpu.x_reg
    .ok (cpu, bus)
  | 0x8C =>
    let (lo, cpu, bus) := cpu.read_instr_byte bus
    let (hi, cpu, bus) := cpu.read_instr_byte bus
    let address := lo ||| (hi <<< 8)
    let bus := bus.write address cpu.y_reg
    .ok (cpu, bus)
  | 0x8D =>
    let (lo, cpu, bus) := cpu.read_instr_byte bus
    let (hi, cpu, bus) := cpu.read_instr_byte bus
    let address := lo ||| (hi <<< 8)
    let bus := bus.write address cpu.a_reg
    .ok (cpu, bus)
  | 0x68 =>
    let (_, bus) := bus.read cpu.prog_counter
    let (data, cpu, bus) := cpu.pull_stack bus
    let cpu := { cpu with a_reg := data }
    let cpu := { cpu with status_flags := setZN cpu.status_flags cpu.a_reg }
    .ok (cpu, bus)
  | 0xBA =>
    let (_, bus) := bus.read cpu.prog_counter
    let cpu := { cpu with x_reg := cpu.stack_pointer }
    let cpu := { cpu with status_flags := setZN cpu.status_flags cpu.x_reg }
    .ok (cpu, bus)
  | 0xAD =>
    let (lo, cpu, bus) := cpu.read_instr_byte bus
    let (hi, cpu, bus) := cpu.read_instr_byte bus
    let address := lo ||| (hi <<< 8)
    let (data, bus) := bus.read address
    let cpu := { cpu with a_reg := data }
    let cpu := { cpu with status_flags := setZN cpu.status_flags cpu.a_reg }
    .ok (cpu, bus)
  | 0x4C =>
    let (lo, cpu, bus) := cpu.read_instr_byte bus
    let (hi, cpu, bus) := cpu.read_instr_byte bus
    let address := lo ||| (hi <<< 8)
    let cpu := { cpu with prog_counter := address }
    .ok (cpu, bus)
  | 0xA0 =>
    let (value, cpu, bus) := cpu.read_instr_byte bus
    let cpu := { cpu with y_reg := value }
    let cpu := { cpu with status_flags := setZN cpu.status_flags cpu.y_reg }
    .ok (cpu, bus)
  | 0xA2 =>
    let (value, cpu, bus) := cpu.read_instr_byte bus
    let cpu := { cpu with x_reg := value }
    let cpu := { cpu with status_flags := setZN cpu.status_flags cpu.x_reg }
    .ok (cpu, bus)
  | 0xA9 =>
    let (value, cpu, bus) := cpu.read_instr_byte bus
    let cpu := { cpu with a_reg := value }
    let cpu := { cpu with status_flags := setZN cpu.status_flags cpu.a_reg }
    .ok (cpu, bus)
  | 0x78 =>
    let (_, bus) := bus.read cpu.prog_counter
    let cpu := { cpu with status_flags := setFlag cpu.status_flags INTERRUPT_DISABLE true }
    .ok (cpu, bus)
  | 0xD8 =>
    let (_, bus) := bus.read cpu.prog_counter
    let cpu := { cpu with status_flags := setFlag cpu.status_flags DECIMAL false }
    .ok (cpu, bus)
  | 0x9A =>
    let (_, bus) := bus.read cpu.prog_counter
    let cpu := { cpu with stack_pointer := cpu.x_reg }
    .ok (cpu, bus)
  | 0x20 =>
    let (low_addr, cpu, bus) := cpu.read_instr_byte bus
    let (_, bus) := bus.read (cpu.stack_pointer ||| 0x0100)
    let (cpu, bus) := cpu.push_stack bus ((cpu.prog_counter >>> 8) % 256)
    let (cpu, bus) := cpu.push_stack bus ((cpu.prog_counter &&& 0xFF) % 256)
    let (hi, cpu, bus) := cpu.read_instr_byte bus
    let address := low_addr ||| (hi <<< 8)
    let cpu := { cpu with prog_counter := address }
    .ok (cpu, bus)
  | 0x84 =>
    let (address, cpu, bus) := cpu.read_instr_byte bus
    let bus := bus.write address cpu.y_reg
    .ok (cpu, bus)
  | 0x86 =>
    let (address, cpu, bus) := cpu.read_instr_byte bus
    let bus := bus.write address cpu.x_reg
    .ok (cpu, bus)
  | 0x91 =>
    let (ptr, cpu, bus) := cpu.read_instr_byte bus
    let (lo, bus) := bus.read ptr
    let (hi, bus) := bus.read ((ptr + 1) % 256)
    let address := lo ||| (hi <<< 8)
    let address := (address + cpu.y_reg) % 65536
    let (_, bus) := bus.read address
    let bus := bus.write address cpu.a_reg
    .ok (cpu, bus)
  | 0xC8 =>
    let (_, bus) := bus.read cpu.prog_counter
    let cpu := { cpu with y_reg := (cpu.y_reg + 1) % 256 }
    let cpu := { cpu with status_flags := setZN cpu.status_flags cpu.y_reg }
    .ok (cpu, bus)
  | 0xE8 =>
    let (_, bus) := bus.read cpu.prog_counter
    let cpu := { cpu with x_reg := (cpu.x_reg + 1) % 256 }
    let cpu := { cpu with status_flags := setZN cpu.status_flags cpu.x_reg }
    .ok (cpu, bus)
  | 0xD0 =>
    let (operand, cpu, bus) := cpu.read_instr_byte bus
    if cpu.status_flags &&& ZERO != 0 then
      .ok (cpu, bus)
    else
      let sum := cpu.prog_counter +
        (operand &&& (if operand &&& 0x80 != 0 then 0xFF00 else 0x0000))
      let new_pc := sum % 65536
      let cpu := { cpu with prog_counter := new_pc }
      if 65536 ≤ sum then
        let (_, bus) := bus.read new_pc
        .ok (cpu, bus)
      else
        .ok (cpu, bus)
  | 0xE6 =>
    let (address, cpu, bus) := cpu.read_instr_byte bus
    let (data, bus) := bus.read address
    let bus := bus.write address data
    let new_data := (data + 1) % 256
    let bus := bus.write address new_data
    let cpu := { cpu with status_flags := setZN cpu.status_flags new_data }
    .ok (cpu, bus)
  | 0xAA =>
    let (_, bus) := bus.read cpu.prog_counter
    let cpu := { cpu with x_reg := cpu.a_reg }
    let cpu := { cpu with status_flags := setZN cpu.status_flags cpu.x_reg }
    .ok (cpu, bus)
  | 0x95 =>
    let (address, cpu, bus) := cpu.read_instr_byte bus
    let (_, bus) := bus.read address
    let bus := bus.write ((address + cpu.x_reg) % 256) cpu.a_reg
    .ok (cpu, bus)
  | 0xCA =>
    let (_, bus) := bus.read cpu.prog_counter
    let cpu := { cpu with x_reg := (cpu.x_reg + 256 - 1) % 256 }
    let cpu := { cpu with status_flags := setZN cpu.status_flags cpu.x_reg }
    .ok (cpu, bus)
  | 0x9D =>
    let (lo, cpu, bus) := cpu.read_instr_byte bus
    let (hi, cpu, bus) := cpu.read_instr_byte bus
    let address := lo ||| (hi <<< 8)
    let (_, bus) := bus.read ((address + cpu.x_reg) % 65536)
    let bus := bus.write ((address + cpu.x_reg) % 65536) cpu.a_reg
    .ok (cpu, bus)
  | 0x60 =>
    let (_, bus) := bus.read cpu.prog_counter
    let (address, cpu, bus) := cpu.pull_stack_address bus
    let cpu := { cpu with prog_counter := address }
    let (_, cpu, bus) := cpu.read_instr_byte bus
    .ok (cpu, bus)
  | 0x2C =>
    let (lo, cpu, bus) := cpu.read_instr_byte bus
    let (hi, cpu, bus) := cpu.read_instr_byte bus
    let address := lo ||| (hi <<< 8)
    let (data, bus) := bus.read address
    let flags := setFlag cpu.status_flags ZERO (data &&& cpu.a_reg == 0)
    let flags := setFlag flags NEGATIVE (data &&& 0x80 != 0)
    let flags := setFlag flags OVERFLOW (data &&& 0x40 != 0)
    let cpu := { cpu with status_flags := flags }
    .ok (cpu, bus)
  | 0x30 =>
    let (operand, cpu, bus) := cpu.read_instr_byte bus
    if cpu.status_flags &&& NEGATIVE == 0 then
      .ok (cpu, bus)
    else
      let sum := cpu.prog_counter +
        (operand &&& (if operand &&& 0x80 != 0 then 0xFF00 else 0x0000))
      let new_pc := sum % 65536
      let cpu := { cpu with prog_counter := new_pc }
      if 65536 ≤ sum then
        let (_, bus) := bus.read new_pc
        .ok (cpu, bus)
      else
        .ok (cpu, bus)
  | 0x88 =>
    let (_, bus) := bus.read cpu.prog_counter
    let cpu := { cpu with y_reg := (cpu.y_reg + 256 - 1) % 256 }
    let cpu := { cpu with status_flags := setZN cpu.status_flags cpu.y_reg }
    .ok (cpu, bus)
  | 0x10 =>
    let (operand, cpu, bus) := cpu.read_instr_byte bus
    if cpu.status_flags &&& NEGATIVE != 0 then
      .ok (cpu, bus)
    else
      let sum := cpu.prog_counter +
        (operand &&& (if operand &&& 0x80 != 0 then 0xFF00 else 0x0000))
      let new_pc := sum % 65536
      let cpu := { cpu with prog_counter := new_pc }
      if 65536 ≤ sum then
        let (_, bus) := bus.read new_pc
        .ok (cpu, bus)
      else
        .ok (cpu, bus)
  | 0x98 =>
    let (_, bus) := bus.read cpu.prog_counter
    let cpu := { cpu with a_reg := cpu.y_reg }
    let cpu := { cpu with status_flags := setZN cpu.status_flags cpu.a_reg }
    .ok (cpu, bus)
  | 0x0D =>
    let (lo, cpu, bus) := cpu.read_instr_byte bus
    let (hi, cpu, bus) := cpu.read_instr_byte bus
    let address := lo ||| (hi <<< 8)
    let (data, bus) := bus.read address
    let cpu := { cpu with a_reg := cpu.a_reg ||| data }
    let cpu := { cpu with status_flags := setZN cpu.status_flags cpu.a_reg }
    .ok (cpu, bus)
  | 0x85 =>
    let (address, cpu, bus) := cpu.read_instr_byte bus
    let bus := bus.write address cpu.a_reg
    .ok (cpu, bus)
  | 0x48 =>
    let (_, bus) := bus.read cpu.prog_counter
    let (cpu, bus) := cpu.push_stack bus cpu.a_reg
    .ok (cpu, bus)
  | 0xA8 =>
    let (_, bus) := bus.read cpu.prog_counter
    let cpu := { cpu with y_reg := cpu.a_reg }
    let cpu := { cpu with status_flags := setZN cpu.status_flags cpu.y_reg }
    .ok (cpu, bus)
  | 0x28 =>
    let (_, bus) := bus.read cpu.prog_counter
    let (data, cpu, bus) := cpu.pull_stack bus
    let cpu := { cpu with status_flags := data &&& 0xFF }
    .ok (cpu, bus)
  | 0xC9 =>
    let (operand, cpu, bus) := cpu.read_instr_byte bus
    let flags := setFlag cpu.status_flags CARRY (decide (operand ≤ cpu.a_reg))
    let flags := setFlag flags ZERO (cpu.a_reg == operand)
    let flags := setFlag flags NEGATIVE (cpu.a_reg &&& 0x80 != 0)
    let cpu := { cpu with status_flags := flags }
    .ok (cpu, bus)
  | 0xF0 =>
    let (operand, cpu, bus) := cpu.read_instr_byte bus
    if cpu.status_flags &&& ZERO == 0 then
      .ok (cpu, bus)
    else
      let sum := cpu.prog_counter +
        (operand &&& (if operand &&& 0x80 != 0 then 0xFF00 else 0x0000))
      let new_pc := sum % 65536
      let cpu := { cpu with prog_counter := new_pc }
      if 65536 ≤ sum then
        let (_, bus) := bus.read new_pc
        .ok (cpu, bus)
      else
        .ok (cpu, bus)
  | 0x24 =>
    let (address, cpu, bus) := cpu.read_instr_byte bus
    let (data, bus) := bus.read address
    let flags := setFlag cpu.status_flags ZERO (data &&& cpu.a_reg == 0)
    let flags := setFlag flags NEGATIVE (data &&& 0x80 != 0)
    let flags := setFlag flags OVERFLOW (data &&& 0x40 != 0)
    let cpu := { cpu with status_flags := flags }
    .ok (cpu, bus)
  | 0x45 =>
    let (address, cpu, bus) := cpu.read_instr_byte bus
    let (data, bus) := bus.read address
    let cpu := { cpu with a_reg := cpu.a_reg ^^^ data }
    let cpu := { cpu with status_flags := setZN cpu.status_flags cpu.a_reg }
    .ok (cpu, bus)
  | 0x46 =>
    let (address, cpu, bus) := cpu.read_instr_byte bus
    let (data, bus) := bus.read address
    let bus := bus.write address data
    let flags := setFlag cpu.status_flags CARRY (data &&& 0x01 != 0)
    let new_data := data >>> 1
    let bus := bus.write address new_data
    let cpu := { cpu with status_flags := setZN flags new_data }
    .ok (cpu, bus)
  | 0x66 =>
    let (address, cpu, bus) := cpu.read_instr_byte bus
    let (data, bus) := bus.read address
    let bus := bus.write address data
    let new_carry := data &&& 0x01 != 0
    let new_data := (data >>> 1) |||
      (if cpu.status_flags &&& CARRY == 0 then 0 else 0x80)
    let bus := bus.write address new_data
    let flags := setFlag cpu.status_flags CARRY new_carry
    let cpu := { cpu with status_flags := setZN flags new_data }
    .ok (cpu, bus)
  | 0x6A =>
    let (_, bus) := bus.read cpu.prog_counter
    let data := cpu.a_reg
    let new_carry := data &&& 0x01 != 0
    let new_data := (data >>> 1) |||
      (if cpu.status_flags &&& CARRY == 0 then 0 else 0x80)
    let cpu := { cpu with a_reg := new_data }
    let flags := setFlag cpu.status_flags CARRY new_carry
    let cpu := { cpu with status_flags := setZN flags new_data }
    .ok (cpu, bus)
  | 0x90 =>
    let (operand, cpu, bus) := cpu.read_instr_byte bus
    if cpu.status_flags &&& CARRY == 0 then
      .ok (cpu, bus)
    else
      let sum := cpu.prog_counter +
        (operand &&& (if operand &&& 0x80 != 0 then 0xFF00 else 0x0000))
      let new_pc := sum % 65536
      let cpu := { cpu with prog_counter := new_pc }
      if 65536 ≤ sum then
        let (_, bus) := bus.read new_pc
        .ok (cpu, bus)
      else
        .ok (cpu, bus)
  | 0xA5 =>
    let (address, cpu, bus) := cpu.read_instr_byte bus
    let (data, bus) := bus.read address
    let cpu := { cpu with a_reg := data }
    let cpu := { cpu with status_flags := setZN cpu.status_flags cpu.a_reg }
    .ok (cpu, bus)
  | 0x49 =>
    let (operand, cpu, bus) := cpu.read_instr_byte bus
    let cpu := { cpu with a_reg := cpu.a_reg ^^^ operand }
    let cpu := { cpu with status_flags := setZN cpu.status_flags cpu.a_reg }
    .ok (cpu, bus)
  | 0xA6 =>
    let (address, cpu, bus) := cpu.read_instr_byte bus
    let (data, bus) := bus.read address
    let cpu := { cpu with x_reg := data }
    let cpu := { cpu with status_flags := setZN cpu.status_flags cpu.x_reg }
    .ok (cpu, bus)
  | 0xAC =>
    let (lo, cpu, bus) := cpu.read_instr_byte bus
    let (hi, cpu, bus) := cpu.read_instr_byte bus
    let address := lo ||| (hi <<< 8)
    let (data, bus) := bus.read address
    let cpu := { cpu with y_reg := data }
    let cpu := { cpu with status_flags := setZN cpu.status_flags cpu.y_reg }
    .ok (cpu, bus)
  | 0xA4 =>
    let (address, cpu, bus) := cpu.read_instr_byte bus
    let (data, bus) := bus.read address
    let cpu := { cpu with y_reg := data }
    let cpu := { cpu with status_flags := setZN cpu.status_flags cpu.y_reg }
    .ok (cpu, bus)
  | 0xC0 =>
    let (operand, cpu, bus) := cpu.read_instr_byte bus
    let flags := setFlag cpu.status_flags CARRY (decide (operand ≤ cpu.y_reg))
    let flags := setFlag flags ZERO (cpu.y_reg == operand)
    let flags := setFlag flags NEGATIVE (cpu.y_reg &&& 0x80 != 0)
    let cpu := { cpu with status_flags := flags }
    .ok (cpu, bus)
  | op => .error op


/-! ## Fixtures and projection helpers used by the claim theorems -/

/-- A bus with no ROM pages, zeroed RAM, zero latch, empty trace. -/
def emptyBus : CpuMemoryBus :=
  { last_exchanged_value := 0
    cart := { mapper := { pages := [] } }
    ram := { storage := fun _ => 0 }
    trace := [] }

/-- CPU of a non-fatal run (`Cpu.new` on the fatal path, unused there). -/
def okCpu (e : Except Nat (Cpu × CpuMemoryBus)) : Cpu :=
  match e with
  | .ok r => r.1
  | .error _ => Cpu.new

/-- Bus of a non-fatal run (`emptyBus` on the fatal path, unused there). -/
def okBus (e : Except Nat (Cpu × CpuMemoryBus)) : CpuMemoryBus :=
  match e with
  | .ok r => r.2
  | .error _ => emptyBus

/-- The opcode a fatal run stopped on, `none` for a non-fatal run. -/
def fatalOpcode : Except Nat (Cpu × CpuMemoryBus) → Option Nat
  | .error o => some o
  | .ok _ => none

/-- Canonical single-instruction fixture: opcode byte at RAM address 0,
`0xEA` elsewhere, no cartridge pages. -/
def canonBus (op : Nat) : CpuMemoryBus :=
  { emptyBus with ram := { storage := fun a => if a = 0 then op else 0xEA } }

/-- One `run_instr` step on `canonBus op` from the power-on register file. -/
def canonRun (op : Nat) : Except Nat (Cpu × CpuMemoryBus) :=
  Cpu.run_instr { Cpu.new with prog_counter := 0 } (canonBus op)

/-- The 51 opcode bytes with an implemented arm in `run_instr`'s `match`,
in source order. -/
def implementedOpcodes : List Nat :=
  [0x08, 0x8E, 0x8C, 0x8D, 0x68, 0xBA, 0xAD, 0x4C, 0xA0, 0xA2, 0xA9, 0x78,
   0xD8, 0x9A, 0x20, 0x84, 0x86, 0x91, 0xC8, 0xE8, 0xD0, 0xE6, 0xAA, 0x95,
   0xCA, 0x9D, 0x60, 0x2C, 0x30, 0x88, 0x10, 0x98, 0x0D, 0x85, 0x48, 0xA8,
   0x28, 0xC9, 0xF0, 0x24, 0x45, 0x46, 0x66, 0x6A, 0x90, 0xA5, 0x49, 0xA6,
   0xAC, 0xA4, 0xC0]

/-- The mnemonic/addressing-mode pairs enumerated in the spec's section 4.4
opcode table, rendered as opcode bytes via the standard 6502 encoding (for
every implemented pair the byte is corroborated by the mnemonic and mode the
source prints in that arm's trace line).  Rows in table order: PHP, PLA/PLP,
PHA, STX/STY/STA (Absolute, Zero Page, Zero-Page-X STA, Absolute-X STA),
STA (Indirect-Y), LDA/LDX/LDY (Immediate, Zero Page, Absolute),
TSX/TAX/TAY/TYA/TXS, JMP, JSR, RTS, INX/INY/DEX/DEY, INC, SEI/CLD,
BNE/BEQ/BPL/BMI/BCC, ORA/EOR (Immediate, Zero Page), BIT (Zero Page,
Absolute), CMP, CPY, LSR, ROR (Zero Page, Accumulator). -/
def specTableOpcodes : List Nat :=
  [0x08,
   0x68, 0x28,
   0x48,
   0x8E, 0x86, 0x8C, 0x84, 0x8D, 0x85, 0x95, 0x9D,
   0x91,
   0xA9, 0xA5, 0xAD, 0xA2, 0xA6, 0xAE, 0xA0, 0xA4, 0xAC,
   0xBA, 0xAA, 0xA8, 0x98, 0x9A,
   0x4C,
   0x20,
   0x60,
   0xE8, 0xC8, 0xCA, 0x88,
   0xE6,
   0x78, 0xD8,
   0xD0, 0xF0, 0x10, 0x30, 0x90,
   0x09, 0x05, 0x49, 0x45,
   0x24, 0x2C,
   0xC9,
   0xC0,
   0x46,
   0x66, 0x6A]

/-- C1 fixture: a taken BNE (Zero clear at power-on) at `0x0100` with the
negative offset byte `0xF0` (−16); the sign-extended branch target would be
`0x00F2`, crossing a 256-byte page. -/
def c1bus : CpuMemoryBus :=
  { emptyBus with
      ram := { storage := fun a =>
        if a = 0x0100 then 0xD0 else if a = 0x0101 then 0xF0 else 0 } }

def c1run : Except Nat (Cpu × CpuMemoryBus) :=
  Cpu.run_instr { Cpu.new with prog_counter := 0x0100 } c1bus

/-- C2 fixture: a ROM page whose reset vector is `0x1234`
(`0xFFFC ↦ 0x34`, `0xFFFD ↦ 0x12`). -/
def c2page : Nat → Nat := fun i =>
  if i = 0x3FFC then 0x34 else if i = 0x3FFD then 0x12 else 0

def c2bus : CpuMemoryBus :=
  { emptyBus with cart := { mapper := { pages := [c2page] } } }

/-- C3 fixture: ORA Absolute (`0x0D 0x40 0x00`) over `RAM[0x40] = 0xF0`. -/
def c3oraBus : CpuMemoryBus :=
  { emptyBus with
      ram := { storage := fun a =>
        if a = 0 then 0x0D else if a = 1 then 0x40 else if a = 2 then 0x00 else
        if a = 0x40 then 0xF0 else 0 } }

def c3oraRun : Except Nat (Cpu × CpuMemoryBus) :=
  Cpu.run_instr { Cpu.new with a_reg := 0x0F } c3oraBus

/-- C3 fixture: LDX Zero Page (`0xA6 0x40`) over `RAM[0x40] = 0x80`. -/
def c3ldxBus : CpuMemoryBus :=
  { emptyBus with
      ram := { storage := fun a =>
        if a = 0 then 0xA6 else if a = 1 then 0x40 else
        if a = 0x40 then 0x80 else 0 } }

def c3ldxRun : Except Nat (Cpu × CpuMemoryBus) :=
  Cpu.run_instr { Cpu.new with prog_counter := 0 } c3ldxBus

/-- C5 fixture: ROM with `LDA #0x42; STA 0x10; JMP 0xC004` at `0xC000` and
reset vector `0xC000`. -/
def c5page : Nat → Nat := fun i =>
  if i = 0 then 0xA9 else if i = 1 then 0x42 else
  if i = 2 then 0x85 else if i = 3 then 0x10 else
  if i = 4 then 0x4C else if i = 5 then 0x04 else if i = 6 then 0xC0 else
  if i = 0x3FFC then 0x00 else if i = 0x3FFD then 0xC0 else 0

def c5bus : CpuMemoryBus :=
  { emptyBus with cart := { mapper := { pages := [c5page] } } }

/-- C5 run: power-on, reset, then exactly three instruction steps. -/
def c5run : Except Nat (Cpu × CpuMemoryBus) := do
  let (cpu, bus) := Cpu.new.reset c5bus
  let (cpu, bus) ← cpu.run_instr bus
  let (cpu, bus) ← cpu.run_instr bus
  cpu.run_instr bus

/-- C6 fixture: opcode at address 0, immediate operand at address 1. -/
def c6bus (op v : Nat) : CpuMemoryBus :=
  { emptyBus with
      ram := { storage := fun a => if a = 0 then op else if a = 1 then v else 0 } }

/-- CMP Immediate (`0xC9 v`) with accumulator `a`. -/
def cmpRun (a v : Nat) : Except Nat (Cpu × CpuMemoryBus) :=
  Cpu.run_instr { Cpu.new with a_reg := a } (c6bus 0xC9 v)

/-- CPY Immediate (`0xC0 v`) with index-Y `y`. -/
def cpyRun (y v : Nat) : Except Nat (Cpu × CpuMemoryBus) :=
  Cpu.run_instr { Cpu.new with y_reg := y } (c6bus 0xC0 v)

/-- C7 witness fixture: empty devices, latch primed to 7. -/
def c7bus : CpuMemoryBus :=
  { emptyBus with last_exchanged_value := 7 }

/-- C8 witness fixture: zeroed RAM. -/
def c8ram : Ram :=
  { storage := fun _ => 0 }

/-- C9 witness fixture: one loaded page holding `i % 256` at offset `i`. -/
def c9page : Nat → Nat := fun i => i % 256

def c9m : Mmc1 :=
  { pages := [c9page] }

/-- C10 fixture: a bus holding an arbitrary ROM image `f` (the function is the
address-space view of the single loaded page) over zeroed RAM. -/
def romBus (f : Nat → Nat) : CpuMemoryBus :=
  { emptyBus with
      cart := { mapper := { pages := [fun i => f (0xC000 + i)] } } }

/-- The RTS routine placed in work RAM: opcode `0x60` at `0x0150`, a `0xEA`
byte after it, zero elsewhere (the C10 fixture RAM image). -/
def rtsRam : Nat → Nat := fun i =>
  if i = 0x0150 then 0x60 else if i = 0x0151 then 0xEA else 0

/-- The `0x60` (RTS) arm of `run_instr` as a standalone function — the body
is verbatim the arm's — used to stage the RTS proof: `run_instr` first
reduces to the dispatched arm (definitionally, since the C10 fixture fetches
the RTS opcode from concrete RAM addresses), then the arm is evaluated. -/
def rtsArm (cpu : Cpu) (bus : CpuMemoryBus) : Except Nat (Cpu × CpuMemoryBus) :=
  let (_, bus) := bus.read cpu.prog_counter
  let (address, cpu, bus) := cpu.pull_stack_address bus
  let cpu := { cpu with prog_counter := address }
  let (_, cpu, bus) := cpu.read_instr_byte bus
  .ok (cpu, bus)

/-- C10 run: one instruction at `p` (a JSR to `0x0150`), then one at the
target (the RTS in `rtsRam`), from stack pointer `0xFD`. -/
def c10run (p : Nat) (f : Nat → Nat) : Except Nat (Cpu × CpuMemoryBus) := do
  let (cpu, bus) ←
    Cpu.run_instr
      { a_reg := 0, x_reg := 0, y_reg := 0, prog_counter := p
        stack_pointer := 0xFD, status_flags := 0x34 }
      { last_exchanged_value := 0
        cart := (romBus f).cart
        ram := { storage := rtsRam }
        trace := [] }
  cpu.run_instr bus

/-- C10 witness ROM: `JSR 0x0150` at `0xD000`. -/
def c10demo : Nat → Nat := fun a =>
  if a = 0xD000 then 0x20 else if a = 0xD001 then 0x50 else
  if a = 0xD002 then 0x01 else 0xEA


/-! ## Shared helper lemmas -/

/-- The fixed-bank mapper makes every cartridge write a no-op. -/
theorem cart_write_eq (c : Cart) (a d : Nat) : c.write a d = (c, false) := rfl

theorem and_mask_ne_zero_iff_testBit (f i : Nat) : f &&& 2 ^ i ≠ 0 ↔ f.testBit i := by
  rw [Nat.and_two_pow]
  cases h : f.testBit i <;> simp

theorem testBit_255 (i : Nat) (hi : i < 8) : Nat.testBit 255 i = true := by
  interval_cases i <;> decide

/-- `setFlag` drives exactly the targeted bit. -/
theorem setFlag_testBit_self (i : Nat) (hi : i < 8) (f : Nat) (b : Bool) :
    (setFlag f (2 ^ i) b).testBit i = b := by
  cases b with
  | true => simp [setFlag, Nat.testBit_two_pow_self]
  | false =>
    rw [setFlag, if_neg (by simp)]
    rw [Nat.testBit_and, Nat.testBit_xor, testBit_255 i hi, Nat.testBit_two_pow_self]
    simp

/-- `setFlag` leaves every other low bit alone. -/
theorem setFlag_testBit_other (i j : Nat) (hi : i < 8) (hij : j ≠ i) (f : Nat) (b : Bool) :
    (setFlag f (2 ^ j) b).testBit i = f.testBit i := by
  cases b with
  | true => simp [setFlag, Nat.testBit_two_pow_of_ne hij]
  | false =>
    rw [setFlag, if_neg (by simp)]
    rw [Nat.testBit_and, Nat.testBit_xor, testBit_255 i hi, Nat.testBit_two_pow_of_ne hij]
    simp

/-- Splitting a 16-bit value into bytes and recombining them (the
`high << 8 | low` idiom) is the identity. -/
theorem split_recombine (n : Nat) (h : n < 65536) :
    ((n / 256) <<< 8) ||| (n % 256) = n := by
  rw [Nat.shiftLeft_eq, Nat.mul_comm,
    show (256 : Nat) = 2 ^ 8 by norm_num,
    ← Nat.mul_add_lt_is_or (by omega : n % 2 ^ 8 < 2 ^ 8) (n / 2 ^ 8)]
  omega

/-- A `romBus` cartridge serves `f` across the whole `0xC000..=0xFFFF` window. -/
theorem romCart_read (f : Nat → Nat) (c : Cart)
    (hc : c = (romBus f).cart) (a : Nat) (h1 : 0xC000 ≤ a) (h2 : a ≤ 0xFFFF) :
    c.read a = some (f a % 256) := by
  subst hc
  simp only [romBus, emptyBus, Cart.read, Mmc1.read, if_pos (And.intro h1 h2),
    List.getLast?_singleton, Option.map_some']
  rw [Nat.add_sub_cancel' h1]

set_option maxRecDepth 100000 in
/-- Executing the JSR at `p` in ROM image `f` (operand bytes `0x50 0x01`,
target `0x0150`), from any latch, RAM contents and prior trace: two operand
fetches, a dummy stack-page read, the return address `p + 2` pushed high
byte (at `0x01FD`) then low byte (at `0x01FC`), then the jump to `0x0150`. -/
theorem jsr_step (p : Nat) (f : Nat → Nat) (l0 : Nat) (st0 : Nat → Nat)
    (t0 : List BusAccess)
    (hp1 : 0xC000 ≤ p) (hp2 : p ≤ 0xFFFC)
    (hf0 : f p = 0x20) (hf1 : f (p + 1) = 0x50) (hf2 : f (p + 2) = 0x01) :
    Cpu.run_instr
      { a_reg := 0, x_reg := 0, y_reg := 0, prog_counter := p
        stack_pointer := 0xFD, status_flags := 0x34 }
      { last_exchanged_value := l0
        cart := (romBus f).cart
        ram := { storage := st0 }
        trace := t0 } =
    .ok
      ({ a_reg := 0, x_reg := 0, y_reg := 0, prog_counter := 0x0150
         stack_pointer := 0xFB, status_flags := 0x34 },
       { last_exchanged_value := 0x01
         cart := (romBus f).cart
         ram := { storage := fun i =>
           if i = 0x01FC then (p + 2) % 256
           else if i = 0x01FD then (p + 2) / 256
           else st0 i }
         trace := t0 ++
           [BusAccess.read p 0x20, BusAccess.read (p + 1) 0x50,
            BusAccess.read 0x01FD (st0 0x01FD % 256),
            BusAccess.write 0x01FD ((p + 2) / 256),
            BusAccess.write 0x01FC ((p + 2) % 256),
            BusAccess.read (p + 2) 0x01] }) := by
  have hm1 : (p + 1) % 65536 = p + 1 := by omega
  have hm2 : (p + 1 + 1) % 65536 = p + 2 := by omega
  have hhi : ((p + 2) >>> 8) % 256 = (p + 2) / 256 := by
    rw [Nat.shiftRight_eq_div_pow]; norm_num; omega
  have hlo : ((p + 2) &&& 0xFF) % 256 = (p + 2) % 256 := by
    have hand := Nat.and_pow_two_sub_one_eq_mod (p + 2) 8
    norm_num at hand
    omega
  have hr1 := romCart_read f _ rfl p (by omega) (by omega)
  have hr2 := romCart_read f _ rfl (p + 1) (by omega) (by omega)
  have hr3 := romCart_read f _ rfl (p + 2) (by omega) (by omega)
  rw [hf0] at hr1
  rw [hf1] at hr2
  rw [hf2] at hr3
  simp only [Cpu.run_instr, Cpu.read_instr_byte, Cpu.push_stack,
    CpuMemoryBus.read, CpuMemoryBus.write, cart_write_eq, Ram.read, Ram.write,
    Ram.RAM_SIZE, hr1, hr2, hr3, hm1, hm2, hhi, hlo,
    List.append_assoc, List.singleton_append, List.cons_append, List.nil_append]
  rfl

set_option maxRecDepth 100000 in
/-- Executing the RTS at `0x0150` from stack pointer `0xFB`, with the pushed
return address at `0x01FC` (low) and `0x01FD` (high) of RAM: a dummy fetch
at `0x0151`, the three stack-page reads, the program counter restored to
`p + 2`, then the final fetch-and-increment leaving it at `p + 3` with the
stack pointer back at `0xFD`. -/
theorem rts_step (p : Nat) (f : Nat → Nat) (l0 : Nat) (t0 : List BusAccess)
    (hp1 : 0xC000 ≤ p) (hp2 : p ≤ 0xFFFC) (hf2 : f (p + 2) = 0x01) :
    Cpu.run_instr
      { a_reg := 0, x_reg := 0, y_reg := 0, prog_counter := 0x0150
        stack_pointer := 0xFB, status_flags := 0x34 }
      { last_exchanged_value := l0
        cart := (romBus f).cart
        ram := { storage := fun i =>
          if i = 0x01FC then (p + 2) % 256
          else if i = 0x01FD then (p + 2) / 256
          else rtsRam i }
        trace := t0 } =
    .ok
      ({ a_reg := 0, x_reg := 0, y_reg := 0, prog_counter := p + 3
         stack_pointer := 0xFD, status_flags := 0x34 },
       { last_exchanged_value := 0x01
         cart := (romBus f).cart
         ram := { storage := fun i =>
           if i = 0x01FC then (p + 2) % 256
           else if i = 0x01FD then (p + 2) / 256
           else rtsRam i }
         trace := t0 ++
           [BusAccess.read 0x0150 0x60, BusAccess.read 0x0151 0xEA,
            BusAccess.read 0x01FB 0x00,
            BusAccess.read 0x01FC ((p + 2) % 256),
            BusAccess.read 0x01FD ((p + 2) / 256),
            BusAccess.read (p + 2) 0x01] }) := by
  have hA : Cpu.run_instr
      { a_reg := 0, x_reg := 0, y_reg := 0, prog_counter := 0x0150
        stack_pointer := 0xFB, status_flags := 0x34 }
      { last_exchanged_value := l0
        cart := (romBus f).cart
        ram := { storage := fun i =>
          if i = 0x01FC then (p + 2) % 256
          else if i = 0x01FD then (p + 2) / 256
          else rtsRam i }
        trace := t0 } =
    rtsArm
      { a_reg := 0, x_reg := 0, y_reg := 0, prog_counter := 0x0151
        stack_pointer := 0xFB, status_flags := 0x34 }
      { last_exchanged_value := 0x60
        cart := (romBus f).cart
        ram := { storage := fun i =>
          if i = 0x01FC then (p + 2) % 256
          else if i = 0x01FD then (p + 2) / 256
          else rtsRam i }
        trace := t0 ++ [BusAccess.read 0x0150 0x60] } := rfl
  rw [hA]
  have hm3 : (p + 2 + 1) % 65536 = p + 3 := by omega
  have hq1 : ((p + 2) / 256) % 256 = (p + 2) / 256 := by omega
  have hq2 : ((p + 2) % 256) % 256 = (p + 2) % 256 := by omega
  have hrec : (((p + 2) / 256) <<< 8) ||| ((p + 2) % 256) = p + 2 :=
    split_recombine (p + 2) (by omega)
  have hr3 := romCart_read f _ rfl (p + 2) (by omega) (by omega)
  rw [hf2] at hr3
  have hn0 : (romBus f).cart.read 0x0151 = none := by
    simp [romBus, emptyBus, Cart.read, Mmc1.read]
  have hn1 : (romBus f).cart.read 0x01FB = none := by
    simp [romBus, emptyBus, Cart.read, Mmc1.read]
  have hn2 : (romBus f).cart.read 0x01FC = none := by
    simp [romBus, emptyBus, Cart.read, Mmc1.read]
  have hn3 : (romBus f).cart.read 0x01FD = none := by
    simp [romBus, emptyBus, Cart.read, Mmc1.read]
  simp [rtsArm, Cpu.read_instr_byte, Cpu.pull_stack_address,
    CpuMemoryBus.read, Ram.read, Ram.RAM_SIZE, rtsRam,
    hn0, hn1, hn2, hn3, hr3, hq1, hq2, hrec, hm3]

/-! ## Claim theorems -/

/-- C1: the claim says a taken branch adds the sign-extended offset to the
advanced program counter and, on a page-crossing such as this taken BNE with
offset `0xF0` (−16) from `0x0102`, issues one extra dummy read at the new
program counter `0x00F2`.  The code instead computes the addend as
`u16::from(operand) & 0xFF00` (or `& 0x0000`), which is always zero, so this
taken branch leaves the program counter at `0x0102` and the run performs
exactly the two fetch reads — no extra bus access and no branch at all. -/
theorem c1_taken_bne_adds_zero_and_never_reads_extra :
    fatalOpcode c1run = none ∧
    Cpu.new.status_flags &&& ZERO = 0 ∧
    (okCpu c1run).prog_counter = 0x0102 ∧
    (okBus c1run).trace =
      [BusAccess.read 0x0100 0xD0, BusAccess.read 0x0101 0xF0] := by
  decide

/-- C2 counterexample: the claim says reset reads the low vector byte
(`0xFFFC`) before the high byte (`0xFFFD`); on a concrete cartridge the
recorded bus trace starts with the `0xFFFD` read, so the stated order is
false (the loaded program counter is still the combined `0x1234`). -/
theorem c2_reset_reads_high_byte_first :
    (Cpu.new.reset c2bus).2.trace =
      [BusAccess.read 0xFFFD 0x12, BusAccess.read 0xFFFC 0x34] ∧
    (Cpu.new.reset c2bus).2.trace ≠
      [BusAccess.read 0xFFFC 0x34, BusAccess.read 0xFFFD 0x12] ∧
    (Cpu.new.reset c2bus).1.prog_counter = 0x1234 := by
  decide

/-- C2 amended: for every CPU and bus state, reset decrements the stack
pointer by 3 (wrapping, with no stack writes — the trace grows by exactly the
two vector reads), sets the interrupt-disable flag, reads the high vector
byte at `0xFFFD` before the low byte at `0xFFFC`, and loads the combined
16-bit value into the program counter, leaving A/X/Y untouched. -/
theorem c2_reset_protocol_amended (cpu : Cpu) (bus : CpuMemoryBus) :
    (cpu.reset bus).1.stack_pointer = (cpu.stack_pointer + 256 - 3) % 256 ∧
    (cpu.reset bus).1.status_flags = cpu.status_flags ||| INTERRUPT_DISABLE ∧
    (cpu.reset bus).1.prog_counter =
      (((bus.read 0xFFFD).1) <<< 8) ||| (((bus.read 0xFFFD).2).read 0xFFFC).1 ∧
    (cpu.reset bus).2.trace = bus.trace ++
      [BusAccess.read 0xFFFD (bus.read 0xFFFD).1,
       BusAccess.read 0xFFFC (((bus.read 0xFFFD).2).read 0xFFFC).1] ∧
    (cpu.reset bus).1.a_reg = cpu.a_reg ∧
    (cpu.reset bus).1.x_reg = cpu.x_reg ∧
    (cpu.reset bus).1.y_reg = cpu.y_reg := by
  refine ⟨rfl, rfl, rfl, ?_, rfl, rfl, rfl⟩
  show ((bus.trace ++ [_]) ++ [_]) = _
  rw [List.append_assoc]
  rfl

/-- C3 counterexample: the claim says every pair of the section 4.4 table is
implemented; ORA Immediate (opcode `0x09`) is in the table, yet executing it
reaches the fatal unimplemented-opcode path. -/
theorem c3_ora_immediate_hits_fatal_path :
    0x09 ∈ specTableOpcodes ∧ fatalOpcode (canonRun 0x09) = some 0x09 := by
  decide

set_option maxRecDepth 100000 in
/-- C3 amended: every table opcode other than ORA Immediate (`0x09`),
ORA Zero Page (`0x05`) and LDX Absolute (`0xAE`) executes without reaching
the fatal path; those three stop fatally, identifying the opcode.  Of the
"in particular" samples, ORA is instead implemented in Absolute mode (OR
into A, Zero/Negative updated: `0x0F | 0xF0 = 0xFF`, Negative set) and LDX
works in Zero Page mode (X loaded with `0x80`, Negative set). -/
theorem c3_table_coverage_amended :
    ((specTableOpcodes.filter
        (fun op => !([0x09, 0x05, 0xAE].contains op))).all
      (fun op => (fatalOpcode (canonRun op)).isNone)) = true ∧
    fatalOpcode (canonRun 0x09) = some 0x09 ∧
    fatalOpcode (canonRun 0x05) = some 0x05 ∧
    fatalOpcode (canonRun 0xAE) = some 0xAE ∧
    (okCpu c3oraRun).a_reg = 0xFF ∧
    (okCpu c3oraRun).status_flags &&& ZERO = 0 ∧
    (okCpu c3oraRun).status_flags &&& NEGATIVE ≠ 0 ∧
    (okCpu c3ldxRun).x_reg = 0x80 ∧
    (okCpu c3ldxRun).status_flags &&& ZERO = 0 ∧
    (okCpu c3ldxRun).status_flags &&& NEGATIVE ≠ 0 := by
  decide

/-- C4 counterexample: the claim says every opcode byte outside the section
4.4 table stops fatally; opcode `0x0D` (ORA Absolute) is not in the table —
the table lists ORA only in Immediate and Zero Page modes — yet `run_instr`
executes it and continues. -/
theorem c4_ora_absolute_executes_despite_absence_from_table :
    0x0D ∉ specTableOpcodes ∧ fatalOpcode (canonRun 0x0D) = none := by
  decide

set_option maxRecDepth 100000 in
/-- C4 amended: the fatal set is the complement of the code's implemented
opcode set (which differs from the table: it contains ORA Absolute `0x0D`
and omits `0x09`, `0x05`, `0xAE`).  Every opcode byte outside
`implementedOpcodes` stops fatally with the offending opcode value reported,
and every byte inside it executes without the fatal stop. -/
theorem c4_unimplemented_opcodes_stop_fatally_amended :
    ((List.range 256).all (fun op =>
      (implementedOpcodes.contains op) ||
        (fatalOpcode (canonRun op) == some op))) = true ∧
    ((List.range 256).all (fun op =>
      (!(implementedOpcodes.contains op)) ||
        (fatalOpcode (canonRun op) == none))) = true := by
  decide

/-- C5: from power-on, reset over a cartridge whose reset vector points at
`LDA #0x42; STA 0x0010; JMP <self>` followed by exactly three instruction
steps leaves WorkRAM address `0x0010` holding `0x42`, the accumulator at
`0x42`, and the Zero and Negative flags clear. -/
theorem c5_end_to_end_lda_sta_jmp :
    fatalOpcode c5run = none ∧
    (okBus c5run).ram.read 0x0010 = some 0x42 ∧
    (okCpu c5run).a_reg = 0x42 ∧
    (okCpu c5run).status_flags &&& ZERO = 0 ∧
    (okCpu c5run).status_flags &&& NEGATIVE = 0 := by
  decide

/-- C6: for every 8-bit accumulator value `a` and immediate operand `v`,
CMP Immediate sets Carry iff `v ≤ a`, Zero iff `a = v`, and Negative iff
bit 7 of `a` is set (taken from the register, not from the subtraction);
CPY Immediate satisfies the identical contract over Y. -/
theorem c6_cmp_cpy_flag_contract (a v : Nat) (ha : a < 256) (hv : v < 256) :
    (((okCpu (cmpRun a v)).status_flags &&& CARRY ≠ 0) ↔ v ≤ a) ∧
    (((okCpu (cmpRun a v)).status_flags &&& ZERO ≠ 0) ↔ a = v) ∧
    (((okCpu (cmpRun a v)).status_flags &&& NEGATIVE ≠ 0) ↔ a.testBit 7) ∧
    (((okCpu (cpyRun a v)).status_flags &&& CARRY ≠ 0) ↔ v ≤ a) ∧
    (((okCpu (cpyRun a v)).status_flags &&& ZERO ≠ 0) ↔ a = v) ∧
    (((okCpu (cpyRun a v)).status_flags &&& NEGATIVE ≠ 0) ↔ a.testBit 7) := by
  have hkey : okCpu (cmpRun a v) =
      { Cpu.new with
          a_reg := a
          prog_counter := 2
          status_flags := setFlag (setFlag (setFlag 0x34 CARRY (decide (v % 256 ≤ a)))
            ZERO (a == v % 256)) NEGATIVE (a &&& 0x80 != 0) } := rfl
  have hkey2 : okCpu (cpyRun a v) =
      { Cpu.new with
          y_reg := a
          prog_counter := 2
          status_flags := setFlag (setFlag (setFlag 0x34 CARRY (decide (v % 256 ≤ a)))
            ZERO (a == v % 256)) NEGATIVE (a &&& 0x80 != 0) } := rfl
  have hC : CARRY = 2 ^ 0 := by norm_num [CARRY]
  have hZ : ZERO = 2 ^ 1 := by norm_num [ZERO]
  have hN : NEGATIVE = 2 ^ 7 := by norm_num [NEGATIVE]
  have h128 : (0x80 : Nat) = 2 ^ 7 := by norm_num
  have hv' : v % 256 = v := Nat.mod_eq_of_lt hv
  rw [hkey, hkey2, hv', hC, hZ, hN, h128]
  refine ⟨?_, ?_, ?_, ?_, ?_, ?_⟩
  · rw [and_mask_ne_zero_iff_testBit,
      setFlag_testBit_other 0 7 (by norm_num) (by norm_num),
      setFlag_testBit_other 0 1 (by norm_num) (by norm_num),
      setFlag_testBit_self 0 (by norm_num)]
    simp
  · rw [and_mask_ne_zero_iff_testBit,
      setFlag_testBit_other 1 7 (by norm_num) (by norm_num),
      setFlag_testBit_self 1 (by norm_num)]
    simp
  · rw [and_mask_ne_zero_iff_testBit, setFlag_testBit_self 7 (by norm_num)]
    rw [bne_iff_ne, ne_eq]
    exact and_mask_ne_zero_iff_testBit a 7
  · rw [and_mask_ne_zero_iff_testBit,
      setFlag_testBit_other 0 7 (by norm_num) (by norm_num),
      setFlag_testBit_other 0 1 (by norm_num) (by norm_num),
      setFlag_testBit_self 0 (by norm_num)]
    simp
  · rw [and_mask_ne_zero_iff_testBit,
      setFlag_testBit_other 1 7 (by norm_num) (by norm_num),
      setFlag_testBit_self 1 (by norm_num)]
    simp
  · rw [and_mask_ne_zero_iff_testBit, setFlag_testBit_self 7 (by norm_num)]
    rw [bne_iff_ne, ne_eq]
    exact and_mask_ne_zero_iff_testBit a 7

/-- C6 witness: the quirk instance `CMP #0x01` / `CPY #0x01` with the
register at `0x00` — Carry, Zero and Negative all come out false. -/
theorem c6_cmp_cpy_flag_contract_witness :
    (((okCpu (cmpRun 0 1)).status_flags &&& CARRY ≠ 0) ↔ 1 ≤ 0) ∧
    (((okCpu (cmpRun 0 1)).status_flags &&& ZERO ≠ 0) ↔ 0 = 1) ∧
    (((okCpu (cmpRun 0 1)).status_flags &&& NEGATIVE ≠ 0) ↔ Nat.testBit 0 7) ∧
    (((okCpu (cpyRun 0 1)).status_flags &&& CARRY ≠ 0) ↔ 1 ≤ 0) ∧
    (((okCpu (cpyRun 0 1)).status_flags &&& ZERO ≠ 0) ↔ 0 = 1) ∧
    (((okCpu (cpyRun 0 1)).status_flags &&& NEGATIVE ≠ 0) ↔ Nat.testBit 0 7) :=
  c6_cmp_cpy_flag_contract 0 1 (by decide) (by decide)

/-- C7: after any bus read the latch equals the byte returned; after any bus
write the latch equals the attempted data byte regardless of claiming; an
unclaimed read returns the previous latch value and changes no device state;
and after a write of `d`, a subsequent unclaimed read returns `d`. -/
theorem c7_open_bus_latch_invariant :
    (∀ (bus : CpuMemoryBus) (a : Nat),
      ((bus.read a).2).last_exchanged_value = (bus.read a).1) ∧
    (∀ (bus : CpuMemoryBus) (a d : Nat),
      (bus.write a d).last_exchanged_value = d) ∧
    (∀ (bus : CpuMemoryBus) (a : Nat),
      bus.cart.read a = none → bus.ram.read a = none →
      (bus.read a).1 = bus.last_exchanged_value ∧
      ((bus.read a).2).last_exchanged_value = bus.last_exchanged_value ∧
      ((bus.read a).2).cart = bus.cart ∧ ((bus.read a).2).ram = bus.ram) ∧
    (∀ (bus : CpuMemoryBus) (a d a2 : Nat),
      bus.cart.read a2 = none → bus.ram.read a2 = none →
      ((bus.write a d).read a2).1 = d) := by
  refine ⟨fun bus a => rfl, fun bus a d => rfl, ?_, ?_⟩
  · intro bus a h1 h2
    refine ⟨?_, ?_, rfl, rfl⟩ <;> simp [CpuMemoryBus.read, h1, h2]
  · intro bus a d a2 h1 h2
    have hgt : a2 > 0x1FFF := by
      by_contra hle
      simp [Ram.read, hle] at h2
    have hr : (bus.ram.write a d).1.read a2 = none := by
      simp [Ram.read, hgt]
    simp [CpuMemoryBus.read, CpuMemoryBus.write, cart_write_eq, h1, hr]

/-- C7 witness: with the latch primed to 7, an unclaimed read at `0x5000`
returns 7 and leaves the devices alone; after a write of 9 (to `0x0033`,
which RAM claims), a subsequent unclaimed read at `0x5000` returns the
just-latched 9. -/
theorem c7_open_bus_latch_invariant_witness :
    ((c7bus.read 0x5000).1 = c7bus.last_exchanged_value ∧
     ((c7bus.read 0x5000).2).last_exchanged_value = c7bus.last_exchanged_value ∧
     ((c7bus.read 0x5000).2).cart = c7bus.cart ∧
     ((c7bus.read 0x5000).2).ram = c7bus.ram) ∧
    ((c7bus.write 0x0033 9).read 0x5000).1 = 9 :=
  ⟨c7_open_bus_latch_invariant.2.2.1 c7bus 0x5000 (by decide) (by decide),
   c7_open_bus_latch_invariant.2.2.2 c7bus 0x0033 9 0x5000 (by decide) (by decide)⟩

/-- C8: WorkRAM round-trips and mirrors — a write of byte `b` at `a ≤ 0x1FFF`
is claimed, reads back as `b` at `a` and at every integer mirror `a + 2048·k`
(`k : ℤ`, positive or negative) that stays inside the window (physical storage
is indexed mod 2048), while addresses above `0x1FFF` read `none` and reject
writes with no state change. -/
theorem c8_ram_roundtrip_mirroring (r : Ram) (a b : Nat) (k : Int)
    (ha : a ≤ 0x1FFF) (hb : b < 256) :
    (r.write a b).2 = true ∧
    ((r.write a b).1).read a = some b ∧
    (0 ≤ (a : Int) + 2048 * k → (a : Int) + 2048 * k ≤ 0x1FFF →
      ((r.write a b).1).read ((a : Int) + 2048 * k).toNat = some b) ∧
    (∀ a2, a2 > 0x1FFF → r.read a2 = none ∧ r.write a2 b = (r, false)) := by
  have hna : ¬ a > 0x1FFF := by omega
  refine ⟨?_, ?_, ?_, ?_⟩
  · simp [Ram.write, hna]
  · simp [Ram.write, Ram.read, hna, Nat.mod_eq_of_lt hb]
  · intro hk0 hk1
    have hnk : ¬ ((a : Int) + 2048 * k).toNat > 0x1FFF := by omega
    have hmod : ((a : Int) + 2048 * k).toNat % Ram.RAM_SIZE = a % Ram.RAM_SIZE := by
      simp only [Ram.RAM_SIZE]
      omega
    simp [Ram.write, Ram.read, hna, hnk, hmod, Nat.mod_eq_of_lt hb]
  · intro a2 h2
    constructor <;> simp [Ram.read, Ram.write, h2]

/-- C8 witness: writing `0x42` at `0x1010` reads back at the downward mirror
`0x1010 + 2048·(−2) = 0x0010`; `0x2000` reads `none` and rejects writes. -/
theorem c8_ram_roundtrip_mirroring_witness :
    ((c8ram.write 0x1010 0x42).1).read (((0x1010 : Int) + 2048 * (-2)).toNat)
      = some 0x42 ∧
    c8ram.read 0x2000 = none ∧
    c8ram.write 0x2000 0x42 = (c8ram, false) :=
  ⟨(c8_ram_roundtrip_mirroring c8ram 0x1010 0x42 (-2) (by decide)
      (by decide)).2.2.1 (by decide) (by decide),
   ((c8_ram_roundtrip_mirroring c8ram 0x1010 0x42 (-2) (by decide)
      (by decide)).2.2.2 0x2000 (by decide)).1,
   ((c8_ram_roundtrip_mirroring c8ram 0x1010 0x42 (-2) (by decide)
      (by decide)).2.2.2 0x2000 (by decide)).2⟩

/-- C9: for every address in `0xC000..=0xFFFF`, a mapper write is rejected
with the mapper unchanged (and through the bus neither cartridge nor RAM
state changes), and a mapper read returns the byte at offset `a - 0xC000`
of the last-loaded page. -/
theorem c9_mapper_readonly_fixed_bank (m : Mmc1) (a d : Nat)
    (h1 : 0xC000 ≤ a) (h2 : a ≤ 0xFFFF) :
    m.write a d = (m, false) ∧
    (∀ bus : CpuMemoryBus,
      (bus.write a d).cart = bus.cart ∧ (bus.write a d).ram = bus.ram) ∧
    (∀ page, m.pages.getLast? = some page →
      m.read a = some (page (a - 0xC000) % 256)) := by
  refine ⟨rfl, ?_, ?_⟩
  · intro bus
    have hgt : a > 0x1FFF := by omega
    constructor
    · simp [CpuMemoryBus.write, cart_write_eq]
    · simp [CpuMemoryBus.write, Ram.write, hgt]
  · intro page hp
    simp [Mmc1.read, h1, h2, hp]

/-- C9 witness: the singleton-page mapper at `0xC005` rejects a write
unchanged and reads offset 5 of its page. -/
theorem c9_mapper_readonly_fixed_bank_witness :
    c9m.write 0xC005 9 = (c9m, false) ∧
    c9m.read 0xC005 = some (c9page (0xC005 - 0xC000) % 256) :=
  ⟨(c9_mapper_readonly_fixed_bank c9m 0xC005 9 (by decide) (by decide)).1,
   (c9_mapper_readonly_fixed_bank c9m 0xC005 9 (by decide) (by decide)).2.2
     c9page rfl⟩

/-- C10: for every program counter `p` holding a JSR (to `0x0150`, where the
RTS routine sits in work RAM), the JSR pushes the return address `p + 2`
high byte first (write at `0x01FD`) then low byte (write at `0x01FC`), and
the immediately following RTS — the stack untouched in between — pulls that
16-bit value, sets the program counter to it, performs one further
fetch-and-increment at `p + 2`, and leaves the program counter at `p + 3`
with the stack pointer restored. -/
theorem c10_jsr_rts_roundtrip (p : Nat) (f : Nat → Nat)
    (hp1 : 0xC000 ≤ p) (hp2 : p ≤ 0xFFFC)
    (hf0 : f p = 0x20) (hf1 : f (p + 1) = 0x50) (hf2 : f (p + 2) = 0x01) :
    fatalOpcode (c10run p f) = none ∧
    (okCpu (c10run p f)).prog_counter = p + 3 ∧
    (okCpu (c10run p f)).stack_pointer = 0xFD ∧
    (okBus (c10run p f)).trace =
      [BusAccess.read p 0x20, BusAccess.read (p + 1) 0x50,
       BusAccess.read 0x01FD 0x00,
       BusAccess.write 0x01FD ((p + 2) / 256),
       BusAccess.write 0x01FC ((p + 2) % 256),
       BusAccess.read (p + 2) 0x01,
       BusAccess.read 0x0150 0x60, BusAccess.read 0x0151 0xEA,
       BusAccess.read 0x01FB 0x00,
       BusAccess.read 0x01FC ((p + 2) % 256),
       BusAccess.read 0x01FD ((p + 2) / 256),
       BusAccess.read (p + 2) 0x01] := by
  have hrun : c10run p f = .ok
      ({ a_reg := 0, x_reg := 0, y_reg := 0, prog_counter := p + 3
         stack_pointer := 0xFD, status_flags := 0x34 },
       { last_exchanged_value := 0x01
         cart := (romBus f).cart
         ram := { storage := fun i =>
           if i = 0x01FC then (p + 2) % 256
           else if i = 0x01FD then (p + 2) / 256
           else rtsRam i }
         trace :=
           [BusAccess.read p 0x20, BusAccess.read (p + 1) 0x50,
            BusAccess.read 0x01FD 0x00,
            BusAccess.write 0x01FD ((p + 2) / 256),
            BusAccess.write 0x01FC ((p + 2) % 256),
            BusAccess.read (p + 2) 0x01,
            BusAccess.read 0x0150 0x60, BusAccess.read 0x0151 0xEA,
            BusAccess.read 0x01FB 0x00,
            BusAccess.read 0x01FC ((p + 2) % 256),
            BusAccess.read 0x01FD ((p + 2) / 256),
            BusAccess.read (p + 2) 0x01] }) := by
    unfold c10run
    rw [jsr_step p f 0 rtsRam [] hp1 hp2 hf0 hf1 hf2]
    exact rts_step p f 0x01
      ([] ++
        [BusAccess.read p 0x20, BusAccess.read (p + 1) 0x50,
         BusAccess.read 0x01FD (rtsRam 0x01FD % 256),
         BusAccess.write 0x01FD ((p + 2) / 256),
         BusAccess.write 0x01FC ((p + 2) % 256),
         BusAccess.read (p + 2) 0x01]) hp1 hp2 hf2
  rw [hrun]
  exact ⟨rfl, rfl, rfl, rfl⟩

/-- C10 witness: the concrete ROM `c10demo` with the JSR at `0xD000`. -/
theorem c10_jsr_rts_roundtrip_witness :
    fatalOpcode (c10run 0xD000 c10demo) = none ∧
    (okCpu (c10run 0xD000 c10demo)).prog_counter = 0xD000 + 3 ∧
    (okCpu (c10run 0xD000 c10demo)).stack_pointer = 0xFD ∧
    (okBus (c10run 0xD000 c10demo)).trace =
      [BusAccess.read 0xD000 0x20, BusAccess.read (0xD000 + 1) 0x50,
       BusAccess.read 0x01FD 0x00,
       BusAccess.write 0x01FD ((0xD000 + 2) / 256),
       BusAccess.write 0x01FC ((0xD000 + 2) % 256),
       BusAccess.read (0xD000 + 2) 0x01,
       BusAccess.read 0x0150 0x60, BusAccess.read 0x0151 0xEA,
       BusAccess.read 0x01FB 0x00,
       BusAccess.read 0x01FC ((0xD000 + 2) % 256),
       BusAccess.read 0x01FD ((0xD000 + 2) / 256),
       BusAccess.read (0xD000 + 2) 0x01] :=
  c10_jsr_rts_roundtrip 0xD000 c10demo (by decide) (by decide)
    (by decide) (by decide) (by decide)

end NesEmu
